import Mathlib

/-!
Verification development for the `gaia_station` Home Assistant integration
(`custom_components/gaia_station/{api,coordinator,sensor,const}.py`).

The Python code is shallowly embedded:
* JSON values become the inductive `Json`; a parsed JSON object (Python
  `dict`) is a `List (String × Json)` in insertion order, looked up with
  `lookup` (Python `dict.get` / `in`), updated with `dictInsert`
  (Python `flat[key] = value`: overwrite in place, or append a fresh key).
* `_flatten_data` (coordinator.py) returns `Option FlatMap`: `none` models
  the `AttributeError` the Python code raises when the value bound to the
  top-level key "pms" is not a dict (`pms.items()` on a non-dict); every
  other malformed branch is skipped by an `isinstance` guard, as in the
  source.
* `async_get_data` (api.py) is embedded as a function of the transport
  event (`HttpEvent`) observed inside the `try` block, returning which
  exception (if any) escapes the method (`FetchResult`).
* `_async_update_data` (coordinator.py) maps the previous `raw_data` and a
  fetch result to the new `raw_data` and the update outcome.
* sensor.py's static catalog and `_build_dynamic_pms_sensors` become lists
  of `SensorDescr`.
-/

/-- JSON values as produced by Python's `json.loads`. Numbers are modelled
as rationals (covering both `int` and `float` literals); `bool` is kept
separate from `num`, mirroring Python's distinct `True`/`False` objects
(but note `isinstance(True, int)` holds in Python, see `isPyNumber`). -/
inductive Json where
  | null : Json
  | bool : Bool → Json
  | num : Rat → Json
  | str : String → Json
  | arr : List Json → Json
  | obj : List (String × Json) → Json

/-- The flat dict built by `_flatten_data`: string keys to JSON scalars,
in insertion order. -/
def FlatMap : Type := List (String × Json)

/-- Python `d.get(k)` on a dict with unique keys: first binding wins. -/
def lookup : List (String × Json) → String → Option Json
  | [], _ => none
  | (k, v) :: rest, key => if k = key then some v else lookup rest key

/-- Python `k in d`. -/
def containsKey (m : List (String × Json)) (k : String) : Bool :=
  (lookup m k).isSome

/-- Python `d[k] = v` on a dict: overwrite in place if `k` is present
(keeping its position in the insertion order), else append at the end. -/
def dictInsert : List (String × Json) → String → Json →
    List (String × Json)
  | [], k, v => [(k, v)]
  | (a, b) :: rest, k, v =>
      if a = k then (k, v) :: rest else (a, b) :: dictInsert rest k v

/-- The seven recognized stat fields, in the order the source lists them. -/
def stat_keys : List String :=
  ["latest", "mean", "median", "min", "max", "stddev", "samples"]

/-- The three particle-size channels, in the order the source lists them. -/
def particle_types : List String := ["pm25", "pm1", "pm10"]

/-- The inner stat loop of `_flatten_data`: for each recognized stat field
present in `src`, set `flat[keyBase ++ "_" ++ stat] = src[stat]`. -/
def insertStats (flat : FlatMap) (keyBase : String)
    (src : List (String × Json)) : FlatMap :=
  stat_keys.foldl
    (fun acc stat =>
      match lookup src stat with
      | some v => dictInsert acc (keyBase ++ "_" ++ stat) v
      | none => acc)
    flat

/-- coordinator.py lines 51-64: the loop over individual PMS sensor groups,
skipping the reserved names and any group whose value is not a dict. -/
def flattenPmsGroups (flat : FlatMap) (groups : List (String × Json)) :
    FlatMap :=
  groups.foldl
    (fun acc g =>
      if g.1 = "historic" ∨ g.1 = "rolling" then acc
      else
        match g.2 with
        | Json.obj groupData =>
            particle_types.foldl
              (fun acc2 pt =>
                match lookup groupData pt with
                | some (Json.obj particleData) =>
                    insertStats acc2 (g.1 ++ "_" ++ pt) particleData
                | _ => acc2)
              acc
        | _ => acc)
    flat

/-- coordinator.py lines 67-76: `pms.get("rolling", {})`, guarded by an
`isinstance(..., dict)` check. -/
def flattenRolling (flat : FlatMap) (pms : List (String × Json)) : FlatMap :=
  match (lookup pms "rolling").getD (Json.obj []) with
  | Json.obj rollingData =>
      particle_types.foldl
        (fun acc pt =>
          match lookup rollingData pt with
          | some (Json.obj particleData) =>
              insertStats acc ("rolling_" ++ pt) particleData
          | _ => acc)
        flat
  | _ => flat

/-- coordinator.py lines 79-85: `data.get("co2", {})`, then the guarded
`co2.get("rolling")` stats block with key base "co2". -/
def flattenCo2 (flat : FlatMap) (data : List (String × Json)) : FlatMap :=
  match (lookup data "co2").getD (Json.obj []) with
  | Json.obj co2 =>
      match lookup co2 "rolling" with
      | some (Json.obj co2Rolling) => insertStats flat "co2" co2Rolling
      | _ => flat
  | _ => flat

/-- Python `isinstance(x, (int, float))`: true for JSON numbers, and also
for booleans because `bool` is a subclass of `int` in Python. -/
def isPyNumber : Json → Bool
  | Json.num _ => true
  | Json.bool _ => true
  | _ => false

/-- coordinator.py lines 88-98: `data.get("met", {})`; for temperature and
humidity, a dict value contributes its stat fields, a bare number
contributes a single `_latest` key. -/
def flattenMet (flat : FlatMap) (data : List (String × Json)) : FlatMap :=
  match (lookup data "met").getD (Json.obj []) with
  | Json.obj met =>
      ["temperature", "humidity"].foldl
        (fun acc metType =>
          match lookup met metType with
          | some (Json.obj metData) => insertStats acc metType metData
          | some v =>
              if isPyNumber v then
                dictInsert acc (metType ++ "_latest") v
              else acc
          | none => acc)
        flat
  | _ => flat

/-- coordinator.py lines 101-105: `data.get("sys", {})` and the five
recognized system fields. -/
def flattenSys (flat : FlatMap) (data : List (String × Json)) : FlatMap :=
  match (lookup data "sys").getD (Json.obj []) with
  | Json.obj sysData =>
      ["boot", "vpwr", "heap", "alive", "time"].foldl
        (fun acc k =>
          match lookup sysData k with
          | some v => dictInsert acc ("sys_" ++ k) v
          | none => acc)
        flat
  | _ => flat

/-- `GaiaStationDataUpdateCoordinator._flatten_data`. The input is the
parsed JSON object (a dict). `none` models the `AttributeError` raised by
`pms.items()` when `data["pms"]` is bound to a non-dict value; the Python
code reaches that call before building any flat entry, and every other
branch is guarded, so in all other cases the result is `some` flat dict
built in source order: pms groups, pms rolling, co2, met, sys. -/
def _flatten_data (data : List (String × Json)) : Option FlatMap :=
  match (lookup data "pms").getD (Json.obj []) with
  | Json.obj pmsGroups =>
      let f1 := flattenPmsGroups [] pmsGroups
      let f2 := flattenRolling f1 pmsGroups
      let f3 := flattenCo2 f2 data
      let f4 := flattenMet f3 data
      some (flattenSys f4 data)
  | _ => none

/-! ## sensor.py: descriptor catalog and dynamic discovery -/

/-- The part of `GaiaStationSensorEntityDescription` the claims are about:
the flat-dict key the entity is gated on and reads, and the display name.
The accessor is `value_fn data = lookup data key` for every descriptor. -/
structure SensorDescr where
  key : String
  name : String
  deriving DecidableEq, Repr

/-- sensor.py lines 44-102: `ROLLING_PM_SENSORS`. -/
def ROLLING_PM_SENSORS : List SensorDescr :=
  [⟨"rolling_pm25_latest", "PM2.5 Rolling"⟩,
   ⟨"rolling_pm25_mean", "PM2.5 Rolling Mean"⟩,
   ⟨"rolling_pm1_latest", "PM1.0 Rolling"⟩,
   ⟨"rolling_pm1_mean", "PM1.0 Rolling Mean"⟩,
   ⟨"rolling_pm10_latest", "PM10 Rolling"⟩,
   ⟨"rolling_pm10_mean", "PM10 Rolling Mean"⟩]

/-- sensor.py lines 104-150: `CO2_SENSORS`. -/
def CO2_SENSORS : List SensorDescr :=
  [⟨"co2_latest", "CO₂"⟩,
   ⟨"co2_mean", "CO₂ Mean"⟩,
   ⟨"co2_min", "CO₂ Min"⟩,
   ⟨"co2_max", "CO₂ Max"⟩,
   ⟨"co2_median", "CO₂ Median"⟩]

/-- sensor.py lines 152-171: `MET_SENSORS`. -/
def MET_SENSORS : List SensorDescr :=
  [⟨"temperature_latest", "Temperature"⟩,
   ⟨"humidity_latest", "Humidity"⟩]

/-- sensor.py lines 173-216: `SYSTEM_SENSORS`. -/
def SYSTEM_SENSORS : List SensorDescr :=
  [⟨"sys_vpwr", "Supply Voltage"⟩,
   ⟨"sys_heap", "Free Heap Memory"⟩,
   ⟨"sys_alive", "Uptime"⟩,
   ⟨"sys_boot", "Boot Count"⟩]

/-- sensor.py lines 219-221. -/
def ALL_STATIC_SENSORS : List SensorDescr :=
  ROLLING_PM_SENSORS ++ CO2_SENSORS ++ MET_SENSORS ++ SYSTEM_SENSORS

/-- Python `s.startswith(p)`, on the underlying character lists. -/
def strStartsWith (s p : String) : Bool :=
  List.isPrefixOf p.data s.data

/-- Python `s.upper()`, on the underlying character list (the group names
it is applied to are ASCII). -/
def strUpper (s : String) : String :=
  String.mk (s.data.map Char.toUpper)

/-- The fixed candidate tuple `("pms1", "pms2", "pms3")` scanned by
`_build_dynamic_pms_sensors`. -/
def pmsGroupCandidates : List String := ["pms1", "pms2", "pms3"]

/-- sensor.py lines 233-241: the discovered-group set, iterated in sorted
order. The source collects into a `set` and then iterates
`sorted(discovered_groups)`; since the candidates are the fixed,
already-sorted triple, that equals filtering the candidate list for
prefixes with at least one matching key. -/
def discoveredGroups (data : FlatMap) : List String :=
  pmsGroupCandidates.filter
    (fun p => data.any (fun kv => strStartsWith kv.1 (p ++ "_")))

/-- sensor.py lines 244-248: `pm_configs`, as (key, display label) pairs. -/
def pm_configs : List (String × String) :=
  [("pm25", "PM2.5"), ("pm1", "PM1.0"), ("pm10", "PM10")]

/-- The five stat variants checked for each channel (sensor.py lines
250-316), with the display-name suffix each one appends. -/
def statVariants : List (String × String) :=
  [("latest", ""), ("mean", " Mean"), ("min", " Min"), ("max", " Max"),
   ("median", " Median")]

/-- sensor.py lines 250-316: for one group and one channel, append a
descriptor for each stat variant whose key is present in the flat dict. -/
def pmChannelSensors (data : FlatMap) (group : String)
    (pmKey pmLabel : String) : List SensorDescr :=
  statVariants.flatMap
    (fun sv =>
      let k := group ++ "_" ++ pmKey ++ "_" ++ sv.1
      if containsKey data k then
        [⟨k, strUpper group ++ " " ++ pmLabel ++ sv.2⟩]
      else [])

/-- sensor.py lines 224-318: `_build_dynamic_pms_sensors`. -/
def _build_dynamic_pms_sensors (data : FlatMap) : List SensorDescr :=
  (discoveredGroups data).flatMap
    (fun group =>
      pm_configs.flatMap (fun cfg => pmChannelSensors data group cfg.1 cfg.2))

/-- sensor.py lines 321-342: the entity list built by `async_setup_entry`
from `coordinator.data or {}` — static descriptors filtered by key
presence, followed by the dynamically discovered ones. -/
def async_setup_entry (coordData : Option FlatMap) : List SensorDescr :=
  let data := coordData.getD []
  ALL_STATIC_SENSORS.filter (fun d => containsKey data d.key)
    ++ _build_dynamic_pms_sensors data

/-! ## api.py: transport client -/

/-- Result of `json.loads(text)` on the response body: either a
`json.JSONDecodeError` (with its message) or a parsed JSON value. -/
inductive BodyParse where
  | invalid (errMsg : String)
  | valid (j : Json)

/-- The transport event observed inside `async_get_data`'s `try` block:
the timeout expiring, an `aiohttp.ClientConnectionError`, some other
`aiohttp.ClientError`, or a response with its status code and body.
`response.raise_for_status()` raises `aiohttp.ClientResponseError` exactly
when the status is >= 400. -/
inductive HttpEvent where
  | timeoutExpired
  | connError (errMsg : String)
  | otherClientError (errMsg : String)
  | response (status : Nat) (body : BodyParse)

/-- Python's `type(x)` rendering, used in the `ValueError` message. -/
def pyTypeName : Json → String
  | Json.null => "<class 'NoneType'>"
  | Json.bool _ => "<class 'bool'>"
  | Json.num _ => "<class 'float'>"
  | Json.str _ => "<class 'str'>"
  | Json.arr _ => "<class 'list'>"
  | Json.obj _ => "<class 'dict'>"

/-- What escapes a call to `async_get_data`: a returned dict, one of the
three `GaiaStationApiError` specializations, or — for a valid JSON body
whose top-level value is not a dict — the plain `ValueError` raised at
api.py line 49, which `except json.JSONDecodeError` does not catch (a
`ValueError` is not a `json.JSONDecodeError`) and none of the outer
`except` clauses catch either. -/
inductive FetchResult where
  | ok (data : List (String × Json))
  | apiError (msg : String)
  | connectionError (msg : String)
  | timeoutError (msg : String)
  | uncaughtValueError (msg : String)

/-- Membership in the `GaiaStationApiError` exception taxonomy:
`GaiaStationConnectionError` and `GaiaStationTimeoutError` are subclasses
of the base `GaiaStationApiError`; the escaped `ValueError` is not. -/
def isGaiaStationApiError : FetchResult → Bool
  | FetchResult.apiError _ => true
  | FetchResult.connectionError _ => true
  | FetchResult.timeoutError _ => true
  | _ => false

/-- api.py lines 32-81: `async_get_data`, as a function of the configured
host, the endpoint, and the transport event. The URL is
`http://{host}{endpoint}`; redirects are not followed
(`allow_redirects=False`), and `raise_for_status` rejects only statuses
>= 400, so 3xx responses fall through to body parsing. -/
def async_get_data (host endpoint : String) (ev : HttpEvent) : FetchResult :=
  let url := "http://" ++ host ++ endpoint
  match ev with
  | HttpEvent.timeoutExpired =>
      FetchResult.timeoutError ("Timeout connecting to " ++ host)
  | HttpEvent.connError e =>
      FetchResult.connectionError ("Cannot connect to " ++ host ++ ": " ++ e)
  | HttpEvent.otherClientError e =>
      FetchResult.connectionError
        ("HTTP error connecting to " ++ host ++ ": " ++ e)
  | HttpEvent.response status body =>
      if 400 ≤ status then
        FetchResult.apiError
          ("HTTP " ++ toString status ++ " error from " ++ url)
      else
        match body with
        | BodyParse.invalid e =>
            FetchResult.apiError
              ("Invalid JSON response from " ++ url ++ ": " ++ e)
        | BodyParse.valid (Json.obj kvs) => FetchResult.ok kvs
        | BodyParse.valid j =>
            FetchResult.uncaughtValueError
              ("Expected dict, got " ++ pyTypeName j)

/-- api.py lines 83-85: `async_get_realtime_data` fetches `/realtime/`. -/
def async_get_realtime_data (host : String) (ev : HttpEvent) : FetchResult :=
  async_get_data host "/realtime/" ev

/-! ## coordinator.py: the update step -/

/-- What escapes `_async_update_data`: the flattened dict, the
`UpdateFailed` re-raise, the `ValueError` escaping the client, or the
`AttributeError` raised by `_flatten_data` on a non-dict "pms" value —
the last two are not `GaiaStationApiError`, so the `except` clause at
coordinator.py line 36 does not catch them. -/
inductive UpdateOutcome where
  | ok (flat : FlatMap)
  | updateFailed (msg : String)
  | uncaughtValueError (msg : String)
  | uncaughtAttributeError

/-- Whether the outcome is the typed `UpdateFailed` signal the host
recognizes. -/
def isUpdateFailed : UpdateOutcome → Bool
  | UpdateOutcome.updateFailed _ => true
  | _ => false

/-- coordinator.py lines 31-37: `_async_update_data`, as a function of the
previous `self.raw_data` and the fetch result; returns the new
`self.raw_data` and the outcome. On a successful fetch, `self.raw_data`
is assigned before `_flatten_data` runs, so when flattening raises the
snapshot has already been replaced. -/
def _async_update_data (rawOld : List (String × Json)) (fetch : FetchResult) :
    List (String × Json) × UpdateOutcome :=
  match fetch with
  | FetchResult.ok payload =>
      match _flatten_data payload with
      | some flat => (payload, UpdateOutcome.ok flat)
      | none => (payload, UpdateOutcome.uncaughtAttributeError)
  | FetchResult.apiError m =>
      (rawOld, UpdateOutcome.updateFailed ("Error communicating with API: " ++ m))
  | FetchResult.connectionError m =>
      (rawOld, UpdateOutcome.updateFailed ("Error communicating with API: " ++ m))
  | FetchResult.timeoutError m =>
      (rawOld, UpdateOutcome.updateFailed ("Error communicating with API: " ++ m))
  | FetchResult.uncaughtValueError m =>
      (rawOld, UpdateOutcome.uncaughtValueError m)

/-! ## Lemmas about the dict model -/

theorem lookup_dictInsert_self (m : List (String × Json)) (k : String)
    (v : Json) : lookup (dictInsert m k v) k = some v := by
  induction m with
  | nil => simp [dictInsert, lookup]
  | cons p rest ih =>
      obtain ⟨a, b⟩ := p
      by_cases ha : a = k
      · subst ha; simp [dictInsert, lookup]
      · simp [dictInsert, lookup, ha, ih]

theorem lookup_dictInsert_other (m : List (String × Json)) (k : String)
    (v : Json) (k' : String) (h : k' ≠ k) :
    lookup (dictInsert m k v) k' = lookup m k' := by
  induction m with
  | nil => simp [dictInsert, lookup, Ne.symm h]
  | cons p rest ih =>
      obtain ⟨a, b⟩ := p
      by_cases ha : a = k
      · subst ha; simp [dictInsert, lookup, Ne.symm h]
      · simp [dictInsert, lookup, ha, ih]

theorem containsKey_dictInsert_self (m : List (String × Json)) (k : String)
    (v : Json) : containsKey (dictInsert m k v) k = true := by
  simp [containsKey, lookup_dictInsert_self]

theorem containsKey_dictInsert_of (m : List (String × Json)) (k k' : String)
    (v : Json) (h : containsKey m k' = true) :
    containsKey (dictInsert m k v) k' = true := by
  by_cases hk : k' = k
  · subst hk; exact containsKey_dictInsert_self m k' v
  · simpa [containsKey, lookup_dictInsert_other m k v k' hk] using h

theorem foldlStats_mono (src : List (String × Json)) (base kk : String)
    (L : List String) :
    ∀ flat : FlatMap, containsKey flat kk = true →
      containsKey
        (L.foldl
          (fun acc stat =>
            match lookup src stat with
            | some v => dictInsert acc (base ++ "_" ++ stat) v
            | none => acc)
          flat) kk = true := by
  induction L with
  | nil => intro flat h; exact h
  | cons s rest ih =>
      intro flat h
      simp only [List.foldl_cons]
      apply ih
      cases hl : lookup src s with
      | some v => simp only [hl]; exact containsKey_dictInsert_of _ _ _ _ h
      | none => simp only [hl]; exact h

theorem foldlStats_hit (src : List (String × Json)) (base stat : String)
    (v : Json) (h2 : lookup src stat = some v) (L : List String)
    (h1 : stat ∈ L) :
    ∀ flat : FlatMap,
      containsKey
        (L.foldl
          (fun acc s =>
            match lookup src s with
            | some w => dictInsert acc (base ++ "_" ++ s) w
            | none => acc)
          flat) (base ++ "_" ++ stat) = true := by
  induction L with
  | nil => cases h1
  | cons s rest ih =>
      intro flat
      simp only [List.foldl_cons]
      rcases List.mem_cons.mp h1 with rfl | hmem
      · apply foldlStats_mono
        simp only [h2]
        exact containsKey_dictInsert_self _ _ _
      · exact ih hmem _

theorem insertStats_mono (flat : FlatMap) (base : String)
    (src : List (String × Json)) (kk : String)
    (h : containsKey flat kk = true) :
    containsKey (insertStats flat base src) kk = true :=
  foldlStats_mono src base kk stat_keys flat h

theorem insertStats_hit (flat : FlatMap) (base : String)
    (src : List (String × Json)) (stat : String) (v : Json)
    (h1 : stat ∈ stat_keys) (h2 : lookup src stat = some v) :
    containsKey (insertStats flat base src) (base ++ "_" ++ stat) = true :=
  foldlStats_hit src base stat v h2 stat_keys h1 flat

/-! ## Lemmas about the dynamic sensor discovery -/

theorem mem_pmChannelSensors {d : FlatMap} {g pk pl : String}
    {s : SensorDescr} (h : s ∈ pmChannelSensors d g pk pl) :
    containsKey d s.key = true := by
  simp only [pmChannelSensors, List.mem_flatMap] at h
  obtain ⟨sv, hsv, hmem⟩ := h
  by_cases hc : containsKey d (g ++ "_" ++ pk ++ "_" ++ sv.1) = true
  · simp only [hc, if_true] at hmem
    rcases List.mem_singleton.mp hmem with rfl
    exact hc
  · simp only [Bool.not_eq_true] at hc
    simp [hc] at hmem

theorem dynamicSensors_key_mem {d : FlatMap} {s : SensorDescr}
    (h : s ∈ _build_dynamic_pms_sensors d) : containsKey d s.key = true := by
  simp only [_build_dynamic_pms_sensors, List.mem_flatMap] at h
  obtain ⟨g, hg, cfg, hcfg, hmem⟩ := h
  exact mem_pmChannelSensors hmem

/-! ## Claims -/

/-- C1, counterexample: binding the top-level key "pms" to the number 5
makes `_flatten_data` raise (`pms.items()` on an `int`), modelled as
`none` — refuting that the transform never aborts on a non-object value
where an object is expected. -/
theorem C1_pms_nondict_aborts :
    _flatten_data [("pms", Json.num 5)] = none := rfl

/-- C1, amended: for every input object whose "pms" key is absent or bound
to an object, `_flatten_data` returns a (possibly empty) flat dict;
missing top-level groups and non-object values in every other position
only cause that branch's keys to be omitted. -/
theorem C1_total_unless_pms_nondict (d : List (String × Json))
    (h : ∀ v, lookup d "pms" = some v → ∃ kvs, v = Json.obj kvs) :
    (_flatten_data d).isSome = true := by
  cases hp : lookup d "pms" with
  | none => simp [_flatten_data, hp]
  | some v =>
      obtain ⟨kvs, hv⟩ := h v hp
      subst hv
      simp [_flatten_data, hp]

/-- C1 witness: a payload with no "pms" group at all flattens without
aborting. -/
theorem C1_total_unless_pms_nondict_witness :
    (_flatten_data [("sys", Json.obj [("boot", Json.num 3)])]).isSome =
      true :=
  C1_total_unless_pms_nondict _ (fun _ hv => nomatch hv)

/-- C2: on an HTTP 200 response whose body is the valid JSON array
`[1, 2, 3]`, `async_get_data` lets the plain `ValueError` escape (the
`except json.JSONDecodeError` clause does not catch it), which is not a
`GaiaStationApiError`. -/
theorem C2_nonobject_json_escapes :
    (async_get_data "station.local" "/realtime/"
        (HttpEvent.response 200
          (BodyParse.valid (Json.arr [Json.num 1, Json.num 2, Json.num 3]))) =
      FetchResult.uncaughtValueError "Expected dict, got <class 'list'>")
    ∧ isGaiaStationApiError
        (FetchResult.uncaughtValueError "Expected dict, got <class 'list'>") =
      false :=
  ⟨rfl, rfl⟩

/-- C3, counterexample: a 301 redirect response whose body is the JSON
object `{}` is returned as a successful fetch, not an `ApiError` —
`raise_for_status` rejects only statuses at or above 400, refuting the
claim for 3xx responses. -/
theorem C3_redirect_not_error :
    (async_get_data "station.local" "/realtime/"
        (HttpEvent.response 301 (BodyParse.valid (Json.obj []))) =
      FetchResult.ok [])
    ∧ isGaiaStationApiError (FetchResult.ok []) = false :=
  ⟨rfl, rfl⟩

/-- C3, amended: every response with status at least 400 fails with
`ApiError` carrying the status code; 3xx responses are not followed
(`allow_redirects=False`) but are processed like successes. -/
theorem C3_status_ge_400_apiError (host ep : String) (status : Nat)
    (body : BodyParse) (h : 400 ≤ status) :
    async_get_data host ep (HttpEvent.response status body) =
      FetchResult.apiError
        ("HTTP " ++ toString status ++ " error from " ++
          ("http://" ++ host ++ ep)) := by
  simp [async_get_data, h]

/-- C3 witness: a 503 response yields `ApiError` carrying the status. -/
theorem C3_status_ge_400_apiError_witness :
    async_get_data "station.local" "/realtime/"
        (HttpEvent.response 503 (BodyParse.valid (Json.obj []))) =
      FetchResult.apiError
        ("HTTP " ++ toString (503 : Nat) ++ " error from " ++
          ("http://" ++ "station.local" ++ "/realtime/")) :=
  C3_status_ge_400_apiError "station.local" "/realtime/" 503
    (BodyParse.valid (Json.obj [])) (by norm_num)

/-- C4: the error taxonomy on the four specified cases — 404 yields
`ApiError` with the status, a connection refusal yields
`ConnectionError`, the 10-second timeout yields `TimeoutError`, and a
non-JSON body yields `ApiError` — each a `GaiaStationApiError`, never an
uncaught crash. -/
theorem C4_error_taxonomy (host ep e : String) (body : BodyParse) :
    (async_get_data host ep (HttpEvent.response 404 body) =
        FetchResult.apiError
          ("HTTP " ++ toString (404 : Nat) ++ " error from " ++
            ("http://" ++ host ++ ep))
      ∧ isGaiaStationApiError
          (async_get_data host ep (HttpEvent.response 404 body)) = true)
    ∧ (async_get_data host ep (HttpEvent.connError e) =
        FetchResult.connectionError
          ("Cannot connect to " ++ host ++ ": " ++ e)
      ∧ isGaiaStationApiError
          (async_get_data host ep (HttpEvent.connError e)) = true)
    ∧ (async_get_data host ep HttpEvent.timeoutExpired =
        FetchResult.timeoutError ("Timeout connecting to " ++ host)
      ∧ isGaiaStationApiError
          (async_get_data host ep HttpEvent.timeoutExpired) = true)
    ∧ (async_get_data host ep (HttpEvent.response 200 (BodyParse.invalid e)) =
        FetchResult.apiError
          ("Invalid JSON response from " ++ ("http://" ++ host ++ ep) ++
            ": " ++ e)
      ∧ isGaiaStationApiError
          (async_get_data host ep
            (HttpEvent.response 200 (BodyParse.invalid e))) = true) :=
  ⟨⟨rfl, rfl⟩, ⟨rfl, rfl⟩, ⟨rfl, rfl⟩, ⟨rfl, rfl⟩⟩

/-- C5, counterexample: a successful fetch of `{"pms": 5}` replaces
`raw_data` before `_flatten_data` raises, and the failure escapes as an
`AttributeError`, not as `UpdateFailed` — refuting that every failing
update leaves the snapshot and surfaces `UpdateFailed`. -/
theorem C5_flatten_abort_replaces_raw :
    _async_update_data [] (FetchResult.ok [("pms", Json.num 5)]) =
      ([("pms", Json.num 5)], UpdateOutcome.uncaughtAttributeError)
    ∧ isUpdateFailed UpdateOutcome.uncaughtAttributeError = false :=
  ⟨rfl, rfl⟩

/-- C5, amended: when the fetch raises any member of the
`GaiaStationApiError` taxonomy, `raw_data` keeps its previous value and
the failure surfaces as `UpdateFailed` carrying the original message;
the escaped `ValueError` propagates uncaught with `raw_data` unchanged;
and when the fetch succeeds but flattening raises, `raw_data` has
already been replaced and the `AttributeError` propagates uncaught. -/
theorem C5_updateFailed_exactly_for_api_errors :
    (∀ (rawOld : List (String × Json)) (m : String),
      _async_update_data rawOld (FetchResult.apiError m) =
        (rawOld,
          UpdateOutcome.updateFailed ("Error communicating with API: " ++ m)))
    ∧ (∀ (rawOld : List (String × Json)) (m : String),
      _async_update_data rawOld (FetchResult.connectionError m) =
        (rawOld,
          UpdateOutcome.updateFailed ("Error communicating with API: " ++ m)))
    ∧ (∀ (rawOld : List (String × Json)) (m : String),
      _async_update_data rawOld (FetchResult.timeoutError m) =
        (rawOld,
          UpdateOutcome.updateFailed ("Error communicating with API: " ++ m)))
    ∧ (∀ (rawOld : List (String × Json)) (m : String),
      _async_update_data rawOld (FetchResult.uncaughtValueError m) =
        (rawOld, UpdateOutcome.uncaughtValueError m))
    ∧ (∀ rawOld payload : List (String × Json),
      _flatten_data payload = none →
        _async_update_data rawOld (FetchResult.ok payload) =
          (payload, UpdateOutcome.uncaughtAttributeError)) := by
  refine ⟨fun _ _ => rfl, fun _ _ => rfl, fun _ _ => rfl, fun _ _ => rfl,
    fun rawOld payload h => ?_⟩
  simp [_async_update_data, h]

/-- C5 witness: with a non-empty previous snapshot and a payload whose
"pms" value is a string, the snapshot is replaced and the error is the
uncaught `AttributeError`. -/
theorem C5_updateFailed_exactly_for_api_errors_witness :
    _async_update_data [("sys", Json.obj [])]
        (FetchResult.ok [("pms", Json.str "x")]) =
      ([("pms", Json.str "x")], UpdateOutcome.uncaughtAttributeError) :=
  C5_updateFailed_exactly_for_api_errors.2.2.2.2 [("sys", Json.obj [])]
    [("pms", Json.str "x")] rfl

/-- C6: dynamic discovery scans only the prefixes pms1, pms2, pms3 (in
sorted order) and creates a descriptor only for each key present: every
synthesized descriptor's key is in the flat dict, and on a dict holding
only `pms2_pm10_min`, exactly the group pms2 and exactly the one
descriptor for `pms2_pm10_min` are produced. -/
theorem C6_dynamic_discovery :
    (∀ (d : FlatMap) (s : SensorDescr),
        s ∈ _build_dynamic_pms_sensors d → containsKey d s.key = true)
    ∧ discoveredGroups [("pms2_pm10_min", Json.num 5)] = ["pms2"]
    ∧ _build_dynamic_pms_sensors [("pms2_pm10_min", Json.num 5)] =
        [⟨"pms2_pm10_min", "PMS2 PM10 Min"⟩] :=
  ⟨fun _ _ h => dynamicSensors_key_mem h, rfl, rfl⟩

/-- C6 witness: the one discovered descriptor's key is indeed a key of the
flat dict. -/
theorem C6_dynamic_discovery_witness :
    containsKey [("pms2_pm10_min", Json.num 5)]
      (SensorDescr.key ⟨"pms2_pm10_min", "PMS2 PM10 Min"⟩) = true :=
  C6_dynamic_discovery.1 [("pms2_pm10_min", Json.num 5)]
    ⟨"pms2_pm10_min", "PMS2 PM10 Min"⟩ (by decide)

/-- C7: on the nested payload with `pms.pms1.pm25.{latest,mean}` and
`sys.boot`, the transform produces exactly the three flat entries
`pms1_pm25_latest`, `pms1_pm25_mean`, `sys_boot`, and no others. -/
theorem C7_flatten_example :
    _flatten_data
        [("pms", Json.obj [("pms1", Json.obj [("pm25",
            Json.obj [("latest", Json.num 12), ("mean", Json.num 10)])])]),
         ("sys", Json.obj [("boot", Json.num 3)])] =
      some [("pms1_pm25_latest", Json.num 12),
        ("pms1_pm25_mean", Json.num 10),
        ("sys_boot", Json.num 3)] := rfl

/-- C8: for every static catalog descriptor and flat dict at setup time,
an entity is created if and only if the descriptor's key is a key of the
flat dict. -/
theorem C8_static_key_gated (data : FlatMap) (d : SensorDescr)
    (h : d ∈ ALL_STATIC_SENSORS) :
    d ∈ async_setup_entry (some data) ↔ containsKey data d.key = true := by
  simp only [async_setup_entry, Option.getD_some]
  constructor
  · intro hm
    rcases List.mem_append.mp hm with hstat | hdyn
    · exact (List.mem_filter.mp hstat).2
    · exact dynamicSensors_key_mem hdyn
  · intro hk
    exact List.mem_append_left _ (List.mem_filter.mpr ⟨h, hk⟩)

/-- C8 witness: the CO₂ descriptor is in the catalog, its key is present
in the example dict, and an entity is created for it. -/
theorem C8_static_key_gated_witness :
    ((⟨"co2_latest", "CO₂"⟩ : SensorDescr) ∈
        async_setup_entry (some [("co2_latest", Json.num 400)]) ↔
      containsKey [("co2_latest", Json.num 400)]
        (SensorDescr.key ⟨"co2_latest", "CO₂"⟩) = true) :=
  C8_static_key_gated [("co2_latest", Json.num 400)]
    ⟨"co2_latest", "CO₂"⟩ (by decide)

/-- C9: a bare number under `met` maps to `<name>_latest` (the example
payload produces exactly `temperature_latest`), and when the entry is an
object, the whole transform emits its recognized stat fields via
`insertStats`, one `<name>_<statfield>` key per stat field present. -/
theorem C9_met_scalar_and_stats :
    (_flatten_data [("met", Json.obj [("temperature", Json.num 21.5)])] =
        some [("temperature_latest", Json.num 21.5)])
    ∧ (∀ md : List (String × Json),
        _flatten_data [("met", Json.obj [("temperature", Json.obj md)])] =
          some (insertStats [] "temperature" md))
    ∧ (∀ (md : List (String × Json)) (stat : String) (v : Json),
        stat ∈ stat_keys → lookup md stat = some v →
          containsKey (insertStats [] "temperature" md)
            ("temperature" ++ "_" ++ stat) = true) :=
  ⟨rfl, fun _ => rfl,
    fun _ _ _ h1 h2 => insertStats_hit _ _ _ _ _ h1 h2⟩

/-- C9 witness: a temperature stats object with a `mean` field yields the
key `temperature_mean`. -/
theorem C9_met_scalar_and_stats_witness :
    containsKey (insertStats [] "temperature" [("mean", Json.num 7)])
      ("temperature" ++ "_" ++ "mean") = true :=
  C9_met_scalar_and_stats.2.2 [("mean", Json.num 7)] "mean" (Json.num 7)
    (by decide) rfl

/-- C10: the flattening transform is a function of its input alone —
flattening the same payload twice yields equal results. -/
theorem C10_flatten_deterministic :
    ∀ p : List (String × Json), _flatten_data p = _flatten_data p :=
  fun _ => rfl
